import Mathlib

/-!
# Verification of the weekly stock dashboard (`weekly_dash.py`)

Shallow embedding of the single source file `weekly_dash.py`:

* the module-level loader (lines 6-14): `read_parquet` input is modelled as a
  list of raw rows whose cells may be missing (`Option`-valued, pandas `NaN`);
  `dropna` + row construction is `toRecord`, ticker normalisation is
  `normTicker`, `sort_values("Date")` is an insertion sort on the date key
  (pandas' sort kind only matters up to tie order, which no claim depends on);
* dates: `pd.to_datetime` values are modelled as natural numbers (days).
  `strftime("%Y-%m-%d")` and `pd.to_datetime` on a formatted label are mutually
  inverse bijections between dates and their ISO strings, so the slider labels
  `date_labels` are identified with the dates they denote; where a date is
  rendered inside a status string we use its decimal rendering, which is
  likewise injective;
* the callback `update_chart` (lines 139-184) becomes an `Option`-valued
  function: `none` models a raised exception (out-of-range list index,
  `iloc[0]` on an empty frame), matching Python partiality;
* `DataFrame.to_csv(index=False)` is modelled structurally as the list of rows
  (header row first, one row of cells per record); the flat CSV string is the
  newline/comma join of this list, which is empty iff the list is empty, and in
  particular the CSV of an empty frame is the (truthy, non-empty) header line.
-/

/-- One raw row of `weekly_data.parquet` before cleaning: every cell may be
missing (pandas `NaN`), which `dropna` (line 7) later removes. The raw `Date`
cell is already the parsed date (see the module comment). -/
structure RawRecord where
  Date : Option Nat
  Open : Option Rat
  High : Option Rat
  Low : Option Rat
  Close : Option Rat
  Volume : Option Int
  Ticker : Option String
  EMA_High : Option Rat
  EMA_Low : Option Rat
deriving DecidableEq

/-- One cleaned row of the dataframe `df` after lines 7-9: all nine columns
present, ticker normalised, date parsed. -/
structure Record where
  Date : Nat
  Open : Rat
  High : Rat
  Low : Rat
  Close : Rat
  Volume : Int
  Ticker : String
  EMA_High : Rat
  EMA_Low : Rat
deriving DecidableEq

/-- Line 8: `df["Ticker"].str.strip().str.upper()` — drop leading and
trailing whitespace, then uppercase every character (spelled out on the
character list of the string). -/
def normTicker (s : String) : String :=
  String.mk
    ((((s.data.dropWhile Char.isWhitespace).reverse.dropWhile Char.isWhitespace).reverse).map
      Char.toUpper)

/-- Lines 7-9 on one row: `dropna` keeps a row iff every one of the nine
columns is present (otherwise `none`), then the ticker is normalised. -/
def toRecord (r : RawRecord) : Option Record := do
  let d ← r.Date
  let o ← r.Open
  let h ← r.High
  let l ← r.Low
  let c ← r.Close
  let v ← r.Volume
  let t ← r.Ticker
  let eh ← r.EMA_High
  let el ← r.EMA_Low
  pure ⟨d, o, h, l, c, v, normTicker t, eh, el⟩

/-- The sort key of line 10: compare rows by `Date`. -/
def dateLe (a b : Record) : Prop := a.Date ≤ b.Date

instance : DecidableRel dateLe := fun a b => inferInstanceAs (Decidable (a.Date ≤ b.Date))

instance : IsTotal Record dateLe := ⟨fun a b => Nat.le_total a.Date b.Date⟩

instance : IsTrans Record dateLe := ⟨fun _ _ _ h h' => Nat.le_trans h h'⟩

/-- Lines 6-10: the module-level dataframe `df` — drop rows with missing
cells, normalise tickers, parse dates, sort by `Date` ascending. -/
def df (input : List RawRecord) : List Record :=
  List.insertionSort dateLe (input.filterMap toRecord)

/-- Line 12: `tickers = sorted(df["Ticker"].unique())` — the distinct ticker
strings of the frame, sorted ascending. -/
def tickers (d : List Record) : List String :=
  List.insertionSort (· ≤ ·) (d.map Record.Ticker).dedup

/-- Line 14: `date_labels = df["Date"].dt.strftime("%Y-%m-%d").tolist()` —
one label per ROW of the sorted frame (labels are identified with the dates
they render, see the module comment). -/
def date_labels (d : List Record) : List Nat := d.map Record.Date

/-- Line 13: the fixed field list offered by the checklist. -/
inductive FieldName
  | Open | High | Low | Close | Volume | EMA_High | EMA_Low
deriving DecidableEq

/-- Line 13: `fields = ["Open", "High", "Low", "Close", "Volume", 'EMA_High', 'EMA_Low']`. -/
def fields : List FieldName :=
  [FieldName.Open, FieldName.High, FieldName.Low, FieldName.Close, FieldName.Volume, FieldName.EMA_High, FieldName.EMA_Low]

/-- Column access `dff[fld]` (line 151) for a plottable field of one row
(`Volume` is plotted as a number like the rest). -/
def getField (r : Record) : FieldName → Rat
  | FieldName.Open => r.Open
  | FieldName.High => r.High
  | FieldName.Low => r.Low
  | FieldName.Close => r.Close
  | FieldName.Volume => (r.Volume : Rat)
  | FieldName.EMA_High => r.EMA_High
  | FieldName.EMA_Low => r.EMA_Low

/-- Line 20: the fixed colour palette. -/
def custom_colors : List String :=
  ["#0f5499", "#9e2f50", "#6a737b", "#ffbc42", "#005f73", "#b08968"]

/-- One `go.Scatter` trace of the figure (line 148-157): x data, y data, the
field it is named after, and its line colour. -/
structure Trace where
  x : List Nat
  y : List Rat
  name : FieldName
  color : String
deriving DecidableEq

/-- Line 144: `dff = df[(df["Ticker"] == selected_ticker) & (df["Date"] >= start_date) & (df["Date"] <= end_date)]`. -/
def filterRows (d : List Record) (t : String) (sd ed : Nat) : List Record :=
  d.filter (fun r => r.Ticker == t && decide (sd ≤ r.Date) && decide (r.Date ≤ ed))

/-- Lines 147-157: `for i, fld in enumerate(selected_fields): fig.add_trace(...)`,
carrying the enumeration index `i`; the colour is `custom_colors[i % len(custom_colors)]`
(a Python index, hence `Option`). -/
def mkTraces (dff : List Record) : List FieldName → Nat → Option (List Trace)
  | [], _ => some []
  | fld :: rest, i =>
    match custom_colors.get? (i % custom_colors.length) with
    | some c =>
      (mkTraces dff rest (i + 1)).map
        (fun ts => ⟨dff.map Record.Date, dff.map (fun r => getField r fld), fld, c⟩ :: ts)
    | none => none

/-- `dff["Date"].max()` (line 175), 0 on an empty frame (only ever used behind
the non-emptiness guard of line 174). -/
def maxDate (d : List Record) : Nat := d.foldr (fun r m => max r.Date m) 0

/-- Line 175: `dff.loc[dff["Date"] == dff["Date"].max()].iloc[0]` — the first
row carrying the maximal date; `iloc[0]` on an empty selection raises, hence
`Option`. -/
def latestRow (d : List Record) : Option Record :=
  (d.filter (fun r => r.Date == maxDate d)).head?

/-- `round(100 * q)` computed on the numerator and denominator:
`⌊100q + 1/2⌋ = ⌊(200 num + den) / (2 den)⌋` (floor division; `den > 0`). -/
def round2 (q : Rat) : Int := Int.fdiv (200 * q.num + q.den) (2 * q.den)

/-- `f"{x:.2f}"` of line 176 on a rational: round to 2 decimal places and
render (Python rounds the underlying float half-to-even; no claim exercises a
tie, so the rounding mode on exact half-cents is immaterial). -/
def fmt2 (q : Rat) : String :=
  let n : Int := round2 q
  let m := n.natAbs
  (if n < 0 then "-" else "")
    ++ toString (m / 100) ++ "." ++ (if m % 100 < 10 then "0" else "") ++ toString (m % 100)

/-- The f-string of line 176, given the latest row's date and EMA values. -/
def latestText (d : Nat) (eh el : Rat) : String :=
  "Latest Week: " ++ toString d ++ " | EMA 48-Week High: " ++ fmt2 eh
    ++ " | EMA 48-Week Low: " ++ fmt2 el

/-- Lines 174-178: the `ema_text` output; `none` models the (unreachable)
`iloc[0]` failure on the guarded branch. -/
def statusOf (dff : List Record) : Option String :=
  if dff.isEmpty then some "No data in selected range."
  else (latestRow dff).map (fun r => latestText r.Date r.EMA_High r.EMA_Low)

/-- The cell rendering of one CSV value; the claims depend only on the
row/column structure of the CSV, not on the decimal rendering of a cell. -/
def ratCell (q : Rat) : String := toString q.num ++ "/" ++ toString q.den

/-- The header row written by `to_csv` (line 182): the frame's column names. -/
def csvHeader : List String :=
  ["Date", "Open", "High", "Low", "Close", "Volume", "Ticker", "EMA_High", "EMA_Low"]

/-- One data row written by `to_csv` (line 182): all columns of one record. -/
def csvRow (r : Record) : List String :=
  [toString r.Date, ratCell r.Open, ratCell r.High, ratCell r.Low, ratCell r.Close,
    toString r.Volume, r.Ticker, ratCell r.EMA_High, ratCell r.EMA_Low]

/-- Line 182: `dff.to_csv(index=False)` — header row then one row per record
(structural view of the CSV string, see the module comment). -/
def to_csv (d : List Record) : List (List String) := csvHeader :: d.map csvRow

/-- The `dict(content=..., filename=...)` of line 184. -/
structure Payload where
  content : List (List String)
  filename : String
deriving DecidableEq

/-- The triple returned by the callback (line 184): figure traces, `ema_text`,
and the optional download payload. -/
structure ViewResult where
  series : List Trace
  status : String
  payload : Option Payload
deriving DecidableEq

/-- Lines 139-184: the callback `update_chart`. `none` models a raised
exception. The final `dict(...) if download_data else None` tests Python
truthiness of the CSV string, i.e. its non-emptiness — structurally, that the
row list is non-empty. -/
def update_chart (d : List Record) (dl : List Nat) (selected_ticker : String)
    (selected_fields : List FieldName) (selected_range : Nat × Nat) (n_clicks : Nat) :
    Option ViewResult :=
  match dl.get? selected_range.1, dl.get? selected_range.2 with
  | some start_date, some end_date =>
    let dff := filterRows d selected_ticker start_date end_date
    match mkTraces dff selected_fields 0, statusOf dff with
    | some traces, some ema_text =>
      let download_data : Option (List (List String)) :=
        if 0 < n_clicks then some (to_csv dff) else none
      some ⟨traces, ema_text,
        match download_data with
        | some c =>
          if c.isEmpty then none
          else some ⟨c, selected_ticker ++ "_weekly.csv"⟩
        | none => none⟩
    | _, _ => none
  | _, _ => none

/-! ## Sample data used by witnesses and counterexamples -/

/-- A raw parquet row with every cell present: date `d`, ticker `t`, and small
fixed prices (`Open 1, High 2, Low 1, Close 3, Volume 10, EMA_High 5, EMA_Low 4`). -/
def mkRaw (d : Nat) (t : String) : RawRecord :=
  ⟨some d, some 1, some 2, some 1, some 3, some 10, some t, some 5, some 4⟩

/-- Two complete rows, unsorted, one ticker needing normalisation. -/
def exInput : List RawRecord := [mkRaw 1 "bbb", mkRaw 0 " AAA "]

/-- Two complete rows sharing one calendar date under two tickers. -/
def exDup : List RawRecord := [mkRaw 0 "AAA", mkRaw 0 "BBB"]

/-- The cleaned row produced from `mkRaw 0 " AAA "`. -/
def recA : Record := ⟨0, 1, 2, 1, 3, 10, "AAA", 5, 4⟩

/-! ## Helper lemmas about the embedded operations -/

theorem mem_filterRows {d : List Record} {t : String} {sd ed : Nat} {r : Record} :
    r ∈ filterRows d t sd ed ↔ r ∈ d ∧ r.Ticker = t ∧ sd ≤ r.Date ∧ r.Date ≤ ed := by
  simp [filterRows, List.mem_filter, and_assoc]

theorem le_maxDate {d : List Record} {r : Record} (h : r ∈ d) : r.Date ≤ maxDate d := by
  induction d with
  | nil => cases h
  | cons a l ih =>
    rcases List.mem_cons.mp h with h | h
    · subst h; exact Nat.le_max_left _ _
    · exact Nat.le_trans (ih h) (Nat.le_max_right _ _)

theorem maxDate_mem {d : List Record} (h : d ≠ []) : ∃ r ∈ d, r.Date = maxDate d := by
  induction d with
  | nil => exact absurd rfl h
  | cons a l ih =>
    cases l with
    | nil => exact ⟨a, List.mem_singleton.mpr rfl, (Nat.max_eq_left (Nat.zero_le _)).symm⟩
    | cons b m =>
      obtain ⟨r, hr, hmax⟩ := ih (by simp)
      rcases Nat.le_total (maxDate (b :: m)) a.Date with hle | hle
      · exact ⟨a, List.mem_cons_self _ _, (Nat.max_eq_left hle).symm⟩
      · exact ⟨r, List.mem_cons_of_mem _ hr, hmax.trans (Nat.max_eq_right hle).symm⟩

theorem latestRow_of_ne_nil {d : List Record} (h : d ≠ []) : ∃ r, latestRow d = some r := by
  obtain ⟨r, hr, hmax⟩ := maxDate_mem h
  have hmem : r ∈ d.filter (fun r => r.Date == maxDate d) :=
    List.mem_filter.mpr ⟨hr, by simp [hmax]⟩
  cases hf : d.filter (fun r => r.Date == maxDate d) with
  | nil => rw [hf] at hmem; cases hmem
  | cons x xs => exact ⟨x, by simp [latestRow, hf]⟩

theorem latestRow_spec {d : List Record} {r : Record} (h : latestRow d = some r) :
    r ∈ d ∧ r.Date = maxDate d := by
  unfold latestRow at h
  cases hf : d.filter (fun r => r.Date == maxDate d) with
  | nil => rw [hf] at h; cases h
  | cons x xs =>
    rw [hf] at h
    have hx : r ∈ d.filter (fun r => r.Date == maxDate d) := by
      rw [hf]; cases h; exact List.mem_cons_self _ _
    have := List.mem_filter.mp hx
    exact ⟨this.1, by simpa using this.2⟩

/-- The total value of the `ema_text` branch (lines 174-178); agrees with
`statusOf` everywhere (`statusOf` is never `none`). -/
def statusText (dff : List Record) : String :=
  if dff.isEmpty then "No data in selected range."
  else
    match latestRow dff with
    | some r => latestText r.Date r.EMA_High r.EMA_Low
    | none => ""

theorem statusOf_eq (dff : List Record) : statusOf dff = some (statusText dff) := by
  unfold statusOf statusText
  by_cases h : dff.isEmpty
  · simp [h]
  · obtain ⟨r, hr⟩ := latestRow_of_ne_nil (by simpa [List.isEmpty_iff] using h)
    simp [h, hr]

theorem statusText_of_ne_nil {dff : List Record} (h : dff ≠ []) :
    ∃ r, r ∈ dff ∧ r.Date = maxDate dff ∧
      statusText dff = latestText r.Date r.EMA_High r.EMA_Low := by
  obtain ⟨r, hr⟩ := latestRow_of_ne_nil h
  obtain ⟨hmem, hmax⟩ := latestRow_spec hr
  refine ⟨r, hmem, hmax, ?_⟩
  unfold statusText
  simp [List.isEmpty_iff, h, hr]

/-- The value `mkTraces` always succeeds with: one trace per selected field,
in selection order, coloured by position. -/
def traceList (dff : List Record) : List FieldName → Nat → List Trace
  | [], _ => []
  | fld :: rest, i =>
    ⟨dff.map Record.Date, dff.map (fun r => getField r fld), fld,
      custom_colors.getD (i % custom_colors.length) ""⟩ :: traceList dff rest (i + 1)

theorem mkTraces_eq (dff : List Record) :
    ∀ (flds : List FieldName) (i : Nat), mkTraces dff flds i = some (traceList dff flds i) := by
  intro flds
  induction flds with
  | nil => intro i; rfl
  | cons fld rest ih =>
    intro i
    have hlt : i % custom_colors.length < custom_colors.length := Nat.mod_lt _ (by decide)
    rw [mkTraces, List.get?_eq_get hlt, traceList, ih, List.getD_eq_get _ _ hlt]
    rfl

theorem traceList_length (dff : List Record) :
    ∀ (flds : List FieldName) (i : Nat), (traceList dff flds i).length = flds.length := by
  intro flds
  induction flds with
  | nil => intro i; rfl
  | cons fld rest ih => intro i; simp [traceList, ih]

theorem traceList_get (dff : List Record) :
    ∀ (flds : List FieldName) (i j : Nat) (hj : j < (traceList dff flds i).length)
      (hj' : j < flds.length),
      (traceList dff flds i).get ⟨j, hj⟩ =
        ⟨dff.map Record.Date, dff.map (fun r => getField r (flds.get ⟨j, hj'⟩)),
          flds.get ⟨j, hj'⟩, custom_colors.getD ((i + j) % custom_colors.length) ""⟩ := by
  intro flds
  induction flds with
  | nil => intro i j hj hj'; cases hj'
  | cons fld rest ih =>
    intro i j hj hj'
    cases j with
    | zero => simp [traceList]
    | succ k =>
      have hk : k < (traceList dff rest (i + 1)).length := by
        simpa [traceList] using Nat.lt_of_succ_lt_succ hj
      have hk' : k < rest.length := Nat.lt_of_succ_lt_succ hj'
      have := ih (i + 1) k hk hk'
      simpa [traceList, Nat.add_assoc, Nat.add_comm 1 k] using this

theorem update_chart_eq {dl : List Nat} {s e sd ed : Nat} (d : List Record) (t : String)
    (flds : List FieldName) (n : Nat) (hs : dl.get? s = some sd) (he : dl.get? e = some ed) :
    update_chart d dl t flds (s, e) n =
      some ⟨traceList (filterRows d t sd ed) flds 0,
        statusText (filterRows d t sd ed),
        if 0 < n then some ⟨to_csv (filterRows d t sd ed), t ++ "_weekly.csv"⟩ else none⟩ := by
  unfold update_chart
  rw [show ((s, e).1 : Nat) = s from rfl, show ((s, e).2 : Nat) = e from rfl, hs, he]
  dsimp only
  rw [mkTraces_eq, statusOf_eq]
  by_cases hn : 0 < n
  · simp [hn, to_csv]
  · simp [hn]

theorem update_chart_some_inv {d : List Record} {dl : List Nat} {t : String}
    {flds : List FieldName} {s e n : Nat} {res : ViewResult}
    (h : update_chart d dl t flds (s, e) n = some res) :
    ∃ sd ed, dl.get? s = some sd ∧ dl.get? e = some ed ∧
      res = ⟨traceList (filterRows d t sd ed) flds 0,
        statusText (filterRows d t sd ed),
        if 0 < n then some ⟨to_csv (filterRows d t sd ed), t ++ "_weekly.csv"⟩ else none⟩ := by
  cases hs : dl.get? s with
  | none =>
    unfold update_chart at h
    rw [show ((s, e).1 : Nat) = s from rfl, hs] at h
    cases h
  | some sd =>
    cases he : dl.get? e with
    | none =>
      unfold update_chart at h
      rw [show ((s, e).1 : Nat) = s from rfl, show ((s, e).2 : Nat) = e from rfl, hs, he] at h
      cases h
    | some ed =>
      rw [update_chart_eq d t flds n hs he] at h
      exact ⟨sd, ed, rfl, rfl, (Option.some.inj h).symm⟩

/-! ## Claims -/

/-- C1 counterexample: an invocation whose filtered row set is empty (ticker
"ZZZ" matches no row) but whose click counter is 5 still returns an export
payload — a header-only CSV — because the CSV string of an empty frame is
non-empty, hence truthy. This refutes "empty filter ⇒ no payload regardless
of counter". -/
theorem C1_counterexample :
    filterRows (df exInput) "ZZZ" 0 0 = [] ∧
    update_chart (df exInput) (date_labels (df exInput)) "ZZZ" [] (0, 0) 5 =
      some ⟨[], "No data in selected range.",
        some ⟨[csvHeader], "ZZZ_weekly.csv"⟩⟩ := by
  decide

/-- C1 (amended): for an invocation whose filtered row set is empty, the
export payload is absent exactly when the click counter is zero; a strictly
positive counter yields a payload holding only the CSV header row (zero data
rows), named `<ticker>_weekly.csv`. -/
theorem C1_empty_filter_export (d : List Record) (dl : List Nat) (t : String)
    (flds : List FieldName) (s e n sd ed : Nat) (res : ViewResult)
    (hs : dl.get? s = some sd) (he : dl.get? e = some ed)
    (hempty : filterRows d t sd ed = [])
    (h : update_chart d dl t flds (s, e) n = some res) :
    res.payload = if 0 < n then some ⟨[csvHeader], t ++ "_weekly.csv"⟩ else none := by
  rw [update_chart_eq d t flds n hs he] at h
  cases Option.some.inj h
  simp [hempty, to_csv]

theorem C1_empty_filter_export_witness :
    (⟨[], "No data in selected range.", some ⟨[csvHeader], "ZZZ_weekly.csv"⟩⟩ :
        ViewResult).payload =
      if 0 < 5 then some ⟨[csvHeader], "ZZZ" ++ "_weekly.csv"⟩ else none :=
  C1_empty_filter_export (df exInput) (date_labels (df exInput)) "ZZZ" [] 0 0 5 0 0
    ⟨[], "No data in selected range.", some ⟨[csvHeader], "ZZZ_weekly.csv"⟩⟩
    (by decide) (by decide) (by decide) (by decide)

/-- C2 counterexample: with two rows sharing one calendar date (under two
tickers), `date_labels` has one entry per row — length 2 with duplicate
labels — while only one distinct date exists. This refutes "one label per
distinct date, with no duplicate labels". -/
theorem C2_counterexample :
    ((df exDup).map Record.Date).dedup.length = 1 ∧
    (date_labels (df exDup)).length = 2 ∧
    ¬(date_labels (df exDup)).Nodup := by
  decide

/-- C2 (amended): `date_labels` carries exactly one label per ROW of the
sorted dataset (its length is the row count and its i-th entry renders the
i-th row's date, so a date occurring in several rows yields duplicate
labels); `tickers` is the ascending, duplicate-free list of exactly the
normalized symbols present. -/
theorem C2_derived_indexes (input : List RawRecord) :
    (date_labels (df input)).length = (df input).length ∧
    (∀ i, (date_labels (df input)).get? i = ((df input).get? i).map Record.Date) ∧
    List.Sorted (· ≤ ·) (tickers (df input)) ∧
    (tickers (df input)).Nodup ∧
    (∀ s, s ∈ tickers (df input) ↔ ∃ r ∈ df input, r.Ticker = s) := by
  refine ⟨List.length_map _ _, fun i => ?_, ?_, ?_, ?_⟩
  · rw [date_labels, List.get?_map]
  · exact List.sorted_insertionSort _ _
  · exact ((List.perm_insertionSort _ _).nodup_iff).mpr ((df input).map Record.Ticker).nodup_dedup
  · intro s
    rw [tickers, (List.perm_insertionSort _ _).mem_iff, List.mem_dedup, List.mem_map]

/-- The result of `update_chart (df exInput) (date_labels (df exInput)) "AAA"
[Close] (0, 1) 1`, used by several witnesses. -/
def resAAA : ViewResult :=
  ⟨[⟨[0], [3], FieldName.Close, "#0f5499"⟩], latestText 0 5 4,
    some ⟨[csvHeader, csvRow recA], "AAA_weekly.csv"⟩⟩

/-- C3: for an invocation with a non-empty filtered row set, the export
payload is present iff the click counter is strictly positive; when present
its content is the CSV of the filtered rows — all columns, header row
followed by exactly one data row per filtered row — under the filename
`<ticker>_weekly.csv`. -/
theorem C3_export_nonempty (d : List Record) (dl : List Nat) (t : String)
    (flds : List FieldName) (s e n sd ed : Nat) (res : ViewResult)
    (hs : dl.get? s = some sd) (he : dl.get? e = some ed)
    (hne : filterRows d t sd ed ≠ [])
    (h : update_chart d dl t flds (s, e) n = some res) :
    (res.payload.isSome ↔ 0 < n) ∧
    ∀ p, res.payload = some p →
      p.content = to_csv (filterRows d t sd ed) ∧
      (∃ rows, p.content = csvHeader :: rows ∧
        rows.length = (filterRows d t sd ed).length) ∧
      p.filename = t ++ "_weekly.csv" := by
  rw [update_chart_eq d t flds n hs he] at h
  cases Option.some.inj h
  constructor
  · by_cases hn : 0 < n <;> simp [hn]
  · intro p hp
    by_cases hn : 0 < n
    · simp only [hn, if_pos] at hp
      cases Option.some.inj hp
      exact ⟨rfl, ⟨(filterRows d t sd ed).map csvRow, rfl, List.length_map _ _⟩, rfl⟩
    · simp [hn] at hp

theorem C3_export_nonempty_witness :
    (resAAA.payload.isSome ↔ 0 < 1) ∧
    ∀ p, resAAA.payload = some p →
      p.content = to_csv (filterRows (df exInput) "AAA" 0 1) ∧
      (∃ rows, p.content = csvHeader :: rows ∧
        rows.length = (filterRows (df exInput) "AAA" 0 1).length) ∧
      p.filename = "AAA" ++ "_weekly.csv" :=
  C3_export_nonempty (df exInput) (date_labels (df exInput)) "AAA" [FieldName.Close]
    0 1 1 0 1 resAAA (by decide) (by decide) (by decide) (by decide)

/-- C4: the status text of an invocation reports, for a non-empty filtered
row set, the maximal date present in that set together with that row's
`EMA_High` and `EMA_Low` rendered to two decimals, and is the fixed marker
"No data in selected range." for an empty filtered set. -/
theorem C4_status_text (d : List Record) (dl : List Nat) (t : String)
    (flds : List FieldName) (s e n sd ed : Nat) (res : ViewResult)
    (hs : dl.get? s = some sd) (he : dl.get? e = some ed)
    (h : update_chart d dl t flds (s, e) n = some res) :
    (filterRows d t sd ed = [] → res.status = "No data in selected range.") ∧
    (filterRows d t sd ed ≠ [] →
      ∃ r, r ∈ filterRows d t sd ed ∧
        (∀ r2 ∈ filterRows d t sd ed, r2.Date ≤ r.Date) ∧
        res.status = latestText r.Date r.EMA_High r.EMA_Low) := by
  rw [update_chart_eq d t flds n hs he] at h
  cases Option.some.inj h
  constructor
  · intro hempty; simp [statusText, hempty]
  · intro hne
    obtain ⟨r, hmem, hmax, heq⟩ := statusText_of_ne_nil hne
    refine ⟨r, hmem, fun r2 h2 => ?_, heq⟩
    rw [hmax]
    exact le_maxDate h2

theorem C4_status_text_witness :
    (filterRows (df exInput) "AAA" 0 1 = [] →
      resAAA.status = "No data in selected range.") ∧
    (filterRows (df exInput) "AAA" 0 1 ≠ [] →
      ∃ r, r ∈ filterRows (df exInput) "AAA" 0 1 ∧
        (∀ r2 ∈ filterRows (df exInput) "AAA" 0 1, r2.Date ≤ r.Date) ∧
        resAAA.status = latestText r.Date r.EMA_High r.EMA_Low) :=
  C4_status_text (df exInput) (date_labels (df exInput)) "AAA" [FieldName.Close]
    0 1 1 0 1 resAAA (by decide) (by decide) (by decide)

/-- C5: every row of the filtered set used by an invocation for ticker `T`
(drawn from the dataset's ticker index) carries exactly that ticker. -/
theorem C5_filter_ticker (d : List Record) (dl : List Nat) (T : String)
    (flds : List FieldName) (s e n sd ed : Nat) (r : Record)
    (hT : T ∈ tickers d) (hs : dl.get? s = some sd) (he : dl.get? e = some ed)
    (hr : r ∈ filterRows d T sd ed) : r.Ticker = T :=
  (mem_filterRows.mp hr).2.1

theorem C5_filter_ticker_witness : recA.Ticker = "AAA" :=
  C5_filter_ticker (df exInput) (date_labels (df exInput)) "AAA" [FieldName.Close]
    0 1 1 0 1 recA
    (by rw [tickers]; exact ((List.perm_insertionSort _ _).mem_iff).mpr (by decide))
    (by decide) (by decide) (by decide)

/-- C6: for a valid range pair `s ≤ e < |date_labels|`, every row of the
filtered set has its date inside the closed interval from the s-th to the
e-th date label. -/
theorem C6_date_span (d : List Record) (dl : List Nat) (t : String)
    (s e : Nat) (hse : s ≤ e) (he : e < dl.length) (r : Record)
    (hr : r ∈ filterRows d t (dl.get ⟨s, lt_of_le_of_lt hse he⟩) (dl.get ⟨e, he⟩)) :
    dl.get ⟨s, lt_of_le_of_lt hse he⟩ ≤ r.Date ∧ r.Date ≤ dl.get ⟨e, he⟩ :=
  (mem_filterRows.mp hr).2.2

theorem C6_date_span_witness :
    (date_labels (df exInput)).get ⟨0, by decide⟩ ≤ recA.Date ∧
    recA.Date ≤ (date_labels (df exInput)).get ⟨1, by decide⟩ :=
  C6_date_span (df exInput) (date_labels (df exInput)) "AAA" 0 1
    (by decide) (by decide) recA (by decide)

/-- C7: an invocation with an empty field list yields zero chart series,
while status text and export payload coincide with those of the same
invocation under any field selection (filtering still runs; the status is
the normal computed value, there being no error value at all). -/
theorem C7_zero_fields (d : List Record) (dl : List Nat) (t : String)
    (flds : List FieldName) (s e n : Nat) (res : ViewResult)
    (h : update_chart d dl t flds (s, e) n = some res) :
    ∃ res0, update_chart d dl t [] (s, e) n = some res0 ∧ res0.series = [] ∧
      res0.status = res.status ∧ res0.payload = res.payload := by
  obtain ⟨sd, ed, hs, he, hres⟩ := update_chart_some_inv h
  subst hres
  exact ⟨_, update_chart_eq d t [] n hs he, rfl, rfl, rfl⟩

theorem C7_zero_fields_witness :
    ∃ res0, update_chart (df exInput) (date_labels (df exInput)) "AAA" [] (0, 1) 1 =
        some res0 ∧
      res0.series = [] ∧ res0.status = resAAA.status ∧ res0.payload = resAAA.payload :=
  C7_zero_fields (df exInput) (date_labels (df exInput)) "AAA" [FieldName.Close]
    0 1 1 resAAA (by decide)

/-- C8: the chart holds one curve per selected field, in selection order;
the j-th curve is named after the j-th selected field, is coloured by the
fixed palette at index `j mod 6` (position, not field identity — so
re-ordering a selection re-assigns colours), and plots the (date, value)
pairs of the filtered rows for that field. -/
theorem C8_series_order_color (d : List Record) (dl : List Nat) (t : String)
    (flds : List FieldName) (s e n : Nat) (res : ViewResult)
    (h : update_chart d dl t flds (s, e) n = some res) :
    res.series.length = flds.length ∧
    ∃ sd ed, dl.get? s = some sd ∧ dl.get? e = some ed ∧
      ∀ j (hj : j < res.series.length) (hj' : j < flds.length),
        res.series.get ⟨j, hj⟩ =
          ⟨(filterRows d t sd ed).map Record.Date,
            (filterRows d t sd ed).map (fun r => getField r (flds.get ⟨j, hj'⟩)),
            flds.get ⟨j, hj'⟩,
            custom_colors.getD (j % custom_colors.length) ""⟩ := by
  obtain ⟨sd, ed, hs, he, hres⟩ := update_chart_some_inv h
  subst hres
  refine ⟨traceList_length _ _ _, sd, ed, hs, he, ?_⟩
  intro j hj hj'
  have := traceList_get (filterRows d t sd ed) flds 0 j hj hj'
  simpa using this

theorem C8_series_order_color_witness :
    resAAA.series.length = [FieldName.Close].length ∧
    ∃ sd ed, (date_labels (df exInput)).get? 0 = some sd ∧
      (date_labels (df exInput)).get? 1 = some ed ∧
      ∀ j (hj : j < resAAA.series.length) (hj' : j < [FieldName.Close].length),
        resAAA.series.get ⟨j, hj⟩ =
          ⟨(filterRows (df exInput) "AAA" sd ed).map Record.Date,
            (filterRows (df exInput) "AAA" sd ed).map
              (fun r => getField r ([FieldName.Close].get ⟨j, hj'⟩)),
            [FieldName.Close].get ⟨j, hj'⟩,
            custom_colors.getD (j % custom_colors.length) ""⟩ :=
  C8_series_order_color (df exInput) (date_labels (df exInput)) "AAA" [FieldName.Close]
    0 1 1 resAAA (by decide)

/-- Ticker shape of a cleaned row: a row accepted by `toRecord` carries the
normalised form of the raw ticker cell. -/
theorem toRecord_ticker {raw : RawRecord} {r : Record} (h : toRecord raw = some r) :
    ∃ t0, raw.Ticker = some t0 ∧ r.Ticker = normTicker t0 := by
  simp only [toRecord, Option.bind_eq_bind, Option.bind_eq_some, Option.pure_def,
    Option.some.injEq] at h
  obtain ⟨d, hD, o, hO, hi, hH, l, hL, c, hC, v, hV, t0, hT, eh, hEH, el, hEL, hr⟩ := h
  exact ⟨t0, hT, by rw [← hr]⟩

/-- C9: after loading, every surviving row stems from a raw row all of whose
nine cells were present (rows with a missing cell are dropped — the frame is
a permutation of exactly the complete raw rows), every ticker is the
trimmed-and-uppercased raw symbol, and the frame is sorted by date
ascending. `update_chart` is a pure function of the frame and the selection,
so no invocation mutates this state. -/
theorem C9_load_invariants (input : List RawRecord) :
    List.Sorted dateLe (df input) ∧
    (df input).Perm (input.filterMap toRecord) ∧
    ∀ r ∈ df input, ∃ raw, raw ∈ input ∧ toRecord raw = some r ∧
      ∃ t0, raw.Ticker = some t0 ∧ r.Ticker = normTicker t0 := by
  refine ⟨List.sorted_insertionSort _ _, List.perm_insertionSort _ _, ?_⟩
  intro r hr
  have hmem : r ∈ input.filterMap toRecord :=
    (List.perm_insertionSort _ _).mem_iff.mp hr
  obtain ⟨raw, hraw, htr⟩ := List.mem_filterMap.mp hmem
  exact ⟨raw, hraw, htr, toRecord_ticker htr⟩

theorem C9_load_invariants_witness :
    ∃ raw, raw ∈ exInput ∧ toRecord raw = some recA ∧
      ∃ t0, raw.Ticker = some t0 ∧ recA.Ticker = normTicker t0 :=
  (C9_load_invariants exInput).2.2 recA (by decide)

/-- C10: the callback is total on in-range inputs — for any ticker string,
any field selection, any click counter and any range pair `s ≤ e` within the
date-label index, `update_chart` returns a result (no list index, column
access or latest-row lookup fails). -/
theorem C10_callback_total (input : List RawRecord) (t : String)
    (flds : List FieldName) (s e n : Nat)
    (hse : s ≤ e) (he : e < (date_labels (df input)).length) :
    (update_chart (df input) (date_labels (df input)) t flds (s, e) n).isSome = true := by
  rw [update_chart_eq (df input) t flds n
    (List.get?_eq_get (lt_of_le_of_lt hse he)) (List.get?_eq_get he)]
  rfl

theorem C10_callback_total_witness :
    (update_chart (df exInput) (date_labels (df exInput)) "AAA"
      [FieldName.Close] (0, 1) 7).isSome = true :=
  C10_callback_total exInput "AAA" [FieldName.Close] 0 1 7 (by decide) (by decide)
